import Mathlib

/-!
Verification of the CMSIS-DAP USB-HID transport backend
(`src/jtag/drivers/cmsis_dap_usb_hid.c`).

The development shallowly embeds the backend: device descriptors produced by
host enumeration, the device-matcher loop of `cmsis_dap_hid_open`, the static
report-size quirk table, the session record (`struct cmsis_dap` fields used by
this backend), and the read / write / alloc / free / close / cancel operations.
Host facilities (hidapi, `malloc`, `mbstowcs`) are modelled as explicit oracle
parameters, so every definition is executable on concrete inputs.

Machine integers: vendor/product ids are 16-bit values modelled as `Nat`
(only equality on them matters); sizes are `Nat`; transport return codes are
`Int`.  The one place where C unsigned wrap-around matters — the
`dap->packet_size - txlen` pad-length computation in `cmsis_dap_hid_write` —
is modelled explicitly with arithmetic modulo `2^32`.
-/

/-- Modelled from the spec: return codes from `helper/log.h`, which is not part
of this source tree.  The spec distinguishes `TimeoutReached` from true errors,
so the codes are distinct integers; the numeric values are the conventional
OpenOCD ones (`ERROR_OK = 0`, `ERROR_FAIL = -4`, `ERROR_TIMEOUT_REACHED = -6`).
Only `ERROR_OK = 0` and pairwise distinctness are relied upon. -/
def ERROR_OK : Int := 0

/-- Modelled from the spec: generic failure code from `helper/log.h`. -/
def ERROR_FAIL : Int := -4

/-- Modelled from the spec: retryable timeout code from `helper/log.h`,
distinguished from true errors. -/
def ERROR_TIMEOUT_REACHED : Int := -6

/-- Modelled from the spec: `REPORT_ID_SIZE` from `cmsis_dap.h` (not in this
source tree).  The spec fixes the HID report-id framing overhead at one byte
(`report_prefix_size` = 1). -/
def REPORT_ID_SIZE : Nat := 1

/-- `sizeof(wchar_t)` on the hosts this backend targets (4 bytes).  Only used
as the multiplier in the serial-buffer `malloc(len * sizeof(wchar_t))` call;
no claim depends on its value. -/
def wcharBytes : Nat := 4

/-- One entry of host enumeration (`struct hid_device_info`): the fields the
backend reads.  Strings are modelled as lists of characters (`wchar_t`
strings without their terminating nul); `path` is an opaque key usable with
`hid_open_path`. -/
structure DeviceDescriptor where
  vendor_id : Nat
  product_id : Nat
  product_string : Option (List Char)
  serial_number : Option (List Char)
  interface_number : Int
  path : Nat
deriving DecidableEq, Repr

/-- The session fields of `struct cmsis_dap` used by the HID backend.  The
`command` and `response` pointers are views into `packet_buffer`; they are
modelled as byte offsets from the buffer origin. -/
structure Session where
  packet_buffer : List Nat
  packet_size : Nat
  packet_usable_size : Nat
  packet_buffer_size : Nat
  command_off : Nat
  response_off : Nat
deriving DecidableEq, Repr

/-- `enum cmsis_dap_blocking` from `cmsis_dap.h`. -/
inductive CmsisDapBlocking where
  | CMSIS_DAP_BLOCKING
  | CMSIS_DAP_NON_BLOCKING
deriving DecidableEq, Repr

/-- `needle` occurs at the very start of `hay` (helper for the `wcsstr`
model). -/
def listStarts : List Char → List Char → Bool
  | _, [] => true
  | [], _ :: _ => false
  | h :: hs, n :: ns => h == n && listStarts hs ns

/-- Model of `wcsstr(hay, needle) != NULL`: `needle` occurs in `hay` as a
contiguous (case-sensitive) substring. -/
def wcsstrHit : List Char → List Char → Bool
  | [], needle => needle == []
  | h :: hs, needle => listStarts (h :: hs) needle || wcsstrHit hs needle

/-- The literal marker `L"CMSIS-DAP"` from the product-string test. -/
def cmsisMarker : List Char := "CMSIS-DAP".toList

/-- The `for (i = 0; vids[i] || pids[i]; i++)` scan of
`cmsis_dap_hid_open`: walk the two zero-terminated arrays in lock-step until
a (0,0) terminator, recording whether some pair equals the candidate's
(vendor_id, product_id).  As in the C code there is no early exit; the result
is the accumulated `found` flag. -/
def vidPidListMatch : List Nat → List Nat → Nat → Nat → Bool
  | v :: vs, p :: ps, vid, pid =>
    if v == 0 && p == 0 then false
    else (v == vid && p == pid) || vidPidListMatch vs ps vid pid
  | _, _, _, _ => false

/-- One row of `struct cmsis_dap_report_size`. -/
structure CmsisDapReportSize where
  vid : Nat
  pid : Nat
  report_size : Nat
deriving DecidableEq, Repr

/-- The static quirk table `report_size_quirks`, including its
zero-vendor/zero-product sentinel row. -/
def report_size_quirks : List CmsisDapReportSize :=
  [ ⟨0x03eb, 0x2140, 512⟩   -- Atmel JTAG-ICE 3
  , ⟨0x03eb, 0x2141, 512⟩   -- Atmel-ICE
  , ⟨0x03eb, 0x2144, 512⟩   -- Atmel Power Debugger
  , ⟨0x03eb, 0x2111, 512⟩   -- EDBG (Xplained Pro)
  , ⟨0x03eb, 0x2157, 512⟩   -- Zero
  , ⟨0x03eb, 0x2169, 512⟩   -- EDBG with Mass Storage
  , ⟨0x03eb, 0x216a, 512⟩   -- commercially available EDBG
  , ⟨0x03eb, 0x2170, 512⟩   -- Kraken
  , ⟨0, 0, 0⟩ ]             -- sentinel

/-- The quirk-table loop of `cmsis_dap_hid_open` (lines 177-182): starting
from the current `packet_size`, scan rows while `vid != 0`; every row whose
(vid, pid) equals the target overwrites `packet_size`.  The loop does not
break on a match, so a later match would win; with the actual table all pairs
are distinct, making this equal to first-match. -/
def quirkScan : List CmsisDapReportSize → Nat → Nat → Nat → Nat
  | [], _, _, packet_size => packet_size
  | e :: rest, vid, pid, packet_size =>
    if e.vid == 0 then packet_size
    else quirkScan rest vid pid
      (if e.vid == vid && e.pid == pid then e.report_size else packet_size)

/-- The report-size determination of `cmsis_dap_hid_open`: default 64 bytes,
overridden by the quirk table. -/
def lookupReportSize (vid pid : Nat) : Nat :=
  quirkScan report_size_quirks vid pid 64

/-- The non-sentinel (vid, pid) pairs of the quirk table. -/
def quirkPairs : List (Nat × Nat) :=
  (report_size_quirks.dropLast).map (fun e => (e.vid, e.pid))

/-- Host-environment oracles for the device-matcher loop.

* `mbtowide s`: result of `mbstowcs` on the narrow serial `s` — `some w`
  when the conversion succeeds producing the wide string `w` (so
  `mbstowcs(NULL, s, 0)` returns `w.length`), `none` when it fails
  (returns `(size_t)-1`).
* `serialMallocOk n`: whether the `malloc(n)` call for the wide-serial
  buffer returns non-null.
* `uninitEq`: on the conversion-failure path the C code computes
  `len = (size_t)-1 + 1 = 0`, calls `malloc(0)`, converts nothing and then
  runs `wcscmp` against the *uninitialized* buffer; this flag resolves that
  undefined comparison (`true` = the garbage compares equal). -/
structure HidEnv where
  mbtowide : List Char → Option (List Char)
  serialMallocOk : Nat → Bool
  uninitEq : Bool

/-- Outcome of one iteration of the matcher loop body for one candidate. -/
inductive DevStep where
  | select
  | errRet
  | skip
deriving DecidableEq, Repr

/-- The body of the `while (cur_dev)` loop of `cmsis_dap_hid_open`
(lines 93-142) for one candidate device:

* `found` is computed from the filter — product-string marker test when
  `vids[0] == 0`, exhaustive vid/pid list scan otherwise — and then cleared
  for the LPC-LINK2 composite device (vid `0x1fc9`, pid `0x0090`) on a
  non-zero interface;
* with no requested serial, a found device breaks the loop (`select`);
* with a requested serial, a found device is compared only if it exposes a
  serial number: the requested serial is converted with `mbstowcs` into a
  freshly `malloc`ed buffer (returning `ERROR_FAIL` when that `malloc`
  yields null, = `errRet`), and an equal comparison breaks the loop while an
  unequal one continues scanning.  A failed conversion makes `len = 0`, so
  the buffer `malloc(0)` and the subsequent comparison reads uninitialized
  memory (`uninitEq`). -/
def devStep (env : HidEnv) (vids pids : List Nat) (serial : Option (List Char))
    (d : DeviceDescriptor) : DevStep :=
  let found0 : Bool :=
    if vids.headD 0 == 0 then
      match d.product_string with
      | none => false
      | some ps => wcsstrHit ps cmsisMarker
    else
      vidPidListMatch vids pids d.vendor_id d.product_id
  let found : Bool := found0 &&
    !(d.vendor_id == 0x1fc9 && d.product_id == 0x0090 && d.interface_number != 0)
  if found then
    match serial with
    | none => .select
    | some s =>
      match d.serial_number with
      | none => .skip
      | some ds =>
        match env.mbtowide s with
        | some w =>
          if env.serialMallocOk ((w.length + 1) * wcharBytes) then
            if w == ds then .select else .skip
          else .errRet
        | none =>
          if env.serialMallocOk 0 then
            if env.uninitEq then .select else .skip
          else .errRet
  else .skip

/-- Result of the whole matcher loop. -/
inductive ScanOutcome where
  | selected (d : DeviceDescriptor)
  | errorReturn
  | exhausted
deriving DecidableEq, Repr

/-- The `while (cur_dev)` matcher loop over the enumeration snapshot:
first candidate to `select` wins, an `errRet` aborts the whole open with
`ERROR_FAIL`, otherwise the scan moves to the next candidate. -/
def scanDevices (env : HidEnv) (vids pids : List Nat) (serial : Option (List Char)) :
    List DeviceDescriptor → ScanOutcome
  | [] => .exhausted
  | d :: rest =>
    match devStep env vids pids serial d with
    | .select => .selected d
    | .errRet => .errorReturn
    | .skip => scanDevices env vids pids serial rest

/-- The matcher's selection predicate, phrased directly: the filter part
(product-string marker when `vids[0] == 0`, exact vid/pid membership
otherwise), the LPC-LINK2 interface exclusion, and — when a (successfully
converted) wide serial `wserial` is requested — exact equality with the
candidate's serial number. -/
def matchesFilter (vids pids : List Nat) (wserial : Option (List Char))
    (d : DeviceDescriptor) : Bool :=
  (if vids.headD 0 == 0 then
     match d.product_string with
     | none => false
     | some ps => wcsstrHit ps cmsisMarker
   else
     vidPidListMatch vids pids d.vendor_id d.product_id)
  && !(d.vendor_id == 0x1fc9 && d.product_id == 0x0090 && d.interface_number != 0)
  && (match wserial with
      | none => true
      | some w => d.serial_number == some w)

/-- The filter predicate *without* the composite-adapter exclusion: the
filter-dependent condition (product-string marker / vid-pid list) plus the
optional serial equality.  On interface 0 the full matcher predicate
coincides with this. -/
def filterAccepts (vids pids : List Nat) (wserial : Option (List Char))
    (d : DeviceDescriptor) : Bool :=
  (if vids.headD 0 == 0 then
     match d.product_string with
     | none => false
     | some ps => wcsstrHit ps cmsisMarker
   else
     vidPidListMatch vids pids d.vendor_id d.product_id)
  && (match wserial with
      | none => true
      | some w => d.serial_number == some w)

/-- C `unsigned int` subtraction `a - b` (32-bit wrap-around), as it occurs
in the `memset` pad-length `dap->packet_size - txlen` of
`cmsis_dap_hid_write`. -/
def usub32 (a b : Nat) : Nat :=
  (((a : Int) - (b : Int)) % (2 ^ 32 : Int)).toNat

/-- `memset(buf + start, 0, len)` on a byte list: zero every index in
`[start, start + len)`.  A fill range reaching past the end of the list is
undefined behaviour in C; the model clips it (the in-bounds question is
settled separately for the write path). -/
def memsetZero (buf : List Nat) (start len : Nat) : List Nat :=
  buf.mapIdx (fun i b => if start ≤ i ∧ i < start + len then 0 else b)

/-- `cmsis_dap_hid_alloc`: compute `packet_buffer_size = pkt_sz +
REPORT_ID_SIZE` and `malloc` a buffer of that many bytes.  The oracle `mem`
is the allocator's answer: `none` = null (fail with `ERROR_FAIL`, session
unchanged), `some buf` = a fresh block with (uninitialized) contents `buf`.
On success all size fields and the `command` / `response` views are set. -/
def cmsis_dap_hid_alloc (mem : Option (List Nat)) (dap : Session) (pkt_sz : Nat) :
    Session × Int :=
  let packet_buffer_size := pkt_sz + REPORT_ID_SIZE
  match mem with
  | none => (dap, ERROR_FAIL)
  | some buf =>
    ({ packet_buffer := buf
     , packet_size := pkt_sz
     , packet_usable_size := pkt_sz
     , packet_buffer_size := packet_buffer_size
     , command_off := REPORT_ID_SIZE
     , response_off := 0 }, ERROR_OK)

/-- `cmsis_dap_hid_free`: release the packet buffer (the model empties it;
the C code nulls the pointer).  Size fields are left as they were, exactly as
in the source. -/
def cmsis_dap_hid_free (dap : Session) : Session :=
  { dap with packet_buffer := [] }

/-- `cmsis_dap_hid_write` (minus the transport call, which the caller's
oracle performs on the returned frame): force byte 0 of the packet buffer
(the HID report-id slot) to 0, then pad with zeros the
`dap->packet_size - txlen` bytes (C unsigned arithmetic) starting at
`dap->command + txlen`.  The result is the frame handed to `hid_write`
together with the byte count `dap->packet_buffer_size`. -/
def writeFrame (dap : Session) (txlen : Nat) : List Nat :=
  memsetZero (dap.packet_buffer.set 0 0)
    (dap.command_off + txlen) (usub32 dap.packet_size txlen)

/-- `cmsis_dap_hid_write`: build the frame, hand it to the transport
(`hidw frame count` models `hid_write(handle, frame, count)`; it is always
called with `count = dap->packet_buffer_size`), translate the sentinel `-1`
to `ERROR_FAIL` and return any other transport result verbatim.  `timeout_ms`
is accepted and ignored, as in the source.  The session is returned with the
mutated buffer. -/
def cmsis_dap_hid_write (hidw : List Nat → Nat → Int) (dap : Session)
    (txlen : Nat) (timeout_ms : Int) : Session × Int :=
  let _ := timeout_ms
  let frame := writeFrame dap txlen
  let retval := hidw frame dap.packet_buffer_size
  ({ dap with packet_buffer := frame },
   if retval == -1 then ERROR_FAIL else retval)

/-- The wait passed to `hid_read_timeout` by `cmsis_dap_hid_read`: zero in
non-blocking mode, the caller's `transfer_timeout_ms` otherwise. -/
def readWaitMs (blocking : CmsisDapBlocking) (transfer_timeout_ms : Int) : Int :=
  if blocking = .CMSIS_DAP_NON_BLOCKING then 0 else transfer_timeout_ms

/-- Overwrite the start of `buf` with `incoming` (what the transport placed
in the packet buffer), keeping the tail. -/
def overwriteStart (buf incoming : List Nat) : List Nat :=
  incoming ++ buf.drop incoming.length

/-- `cmsis_dap_hid_read`: call
`hid_read_timeout(handle, packet_buffer, packet_buffer_size, wait_ms)` —
modelled by the oracle `hidr size wait = (data, retval)`, `data` being the
bytes the transport wrote into the buffer — then translate: `0` becomes
`ERROR_TIMEOUT_REACHED`, the sentinel `-1` becomes `ERROR_FAIL`, anything
else is returned verbatim as the byte count. -/
def cmsis_dap_hid_read (hidr : Nat → Int → (List Nat × Int)) (dap : Session)
    (transfer_timeout_ms : Int) (blocking : CmsisDapBlocking) : Session × Int :=
  let wait_ms := readWaitMs blocking transfer_timeout_ms
  let res := hidr dap.packet_buffer_size wait_ms
  let dap' := { dap with
    packet_buffer := overwriteStart dap.packet_buffer (res.1.take dap.packet_buffer_size) }
  (dap',
   if res.2 == 0 then ERROR_TIMEOUT_REACHED
   else if res.2 == -1 then ERROR_FAIL
   else res.2)

/-- `cmsis_dap_hid_cancel_all`: a deliberate no-op. -/
def cmsis_dap_hid_cancel_all (dap : Session) : Session :=
  dap

/-- Oracles for a whole `cmsis_dap_hid_open` run, extending the matcher
environment with the remaining host calls, each resolved at its own call
site:

* `hidInitOk` — `hid_init() == 0`;
* `devs` — the enumeration snapshot `hid_enumerate(0x0, 0x0)`;
* `bdataMallocOk` — the `malloc(sizeof(struct cmsis_dap_backend_data))`;
* `openPathOk p` — `hid_open_path(p) != NULL`;
* `pktBufMem n` — the packet-buffer `malloc(n)` inside
  `cmsis_dap_hid_alloc` (`none` = null, `some buf` = fresh block
  contents). -/
structure OpenEnv extends HidEnv where
  hidInitOk : Bool
  devs : List DeviceDescriptor
  bdataMallocOk : Bool
  openPathOk : Nat → Bool
  pktBufMem : Nat → Option (List Nat)

/-- Observable resource state at the moment `cmsis_dap_hid_open` returns,
together with its return code.

* `hidInitialized` — `hid_init` succeeded and `hid_exit` has not run;
* `enumOutstanding` — an enumeration snapshot was obtained and
  `hid_free_enumeration` was *not* called before returning;
* `handleOpen` — a device handle obtained from `hid_open_path` is still
  open;
* `bdataLive` — the backend-data record is still allocated;
* `session` — the session fields when open succeeded. -/
structure OpenState where
  result : Int
  hidInitialized : Bool
  enumOutstanding : Bool
  handleOpen : Bool
  bdataLive : Bool
  session : Option Session
deriving Repr

/-- `cmsis_dap_hid_open`, step for step:

1. `hid_init`; on failure return `ERROR_FAIL` (no enumeration yet).
2. `hid_enumerate`, then the matcher loop (`scanDevices`).  The in-loop
   `return ERROR_FAIL` of the wide-serial `malloc` failure does **not** free
   the enumeration.
3. After the loop, `target_vid`/`target_pid` are the selected device's ids
   (or 0,0 when the scan was exhausted); if both are 0 the enumeration is
   freed and open fails (not found).
4. `malloc` of the backend data; on failure return `ERROR_FAIL` — also
   without freeing the enumeration, which `hid_free_enumeration` releases
   only after the subsequent `hid_open_path`.
5. `hid_open_path`, then `hid_free_enumeration`; a null handle fails with
   `ERROR_FAIL` (backend data stays allocated, as in the source).
6. Quirk-table lookup for the packet size, then `cmsis_dap_hid_alloc`; on
   allocation failure `cmsis_dap_hid_close` runs (closing the handle,
   `hid_exit`, freeing the backend data and the buffer) and open returns
   `ERROR_FAIL`.
7. Success: set the `command` / `response` views and return `ERROR_OK`. -/
def cmsis_dap_hid_open (env : OpenEnv) (vids pids : List Nat)
    (serial : Option (List Char)) (dap0 : Session) : OpenState :=
  if !env.hidInitOk then
    { result := ERROR_FAIL, hidInitialized := false, enumOutstanding := false
    , handleOpen := false, bdataLive := false, session := none }
  else
    match scanDevices env.toHidEnv vids pids serial env.devs with
    | .errorReturn =>
      { result := ERROR_FAIL, hidInitialized := true, enumOutstanding := true
      , handleOpen := false, bdataLive := false, session := none }
    | .exhausted =>
      { result := ERROR_FAIL, hidInitialized := true, enumOutstanding := false
      , handleOpen := false, bdataLive := false, session := none }
    | .selected d =>
      if d.vendor_id == 0 && d.product_id == 0 then
        { result := ERROR_FAIL, hidInitialized := true, enumOutstanding := false
        , handleOpen := false, bdataLive := false, session := none }
      else if !env.bdataMallocOk then
        { result := ERROR_FAIL, hidInitialized := true, enumOutstanding := true
        , handleOpen := false, bdataLive := false, session := none }
      else if !env.openPathOk d.path then
        { result := ERROR_FAIL, hidInitialized := true, enumOutstanding := false
        , handleOpen := false, bdataLive := true, session := none }
      else
        let packet_size := lookupReportSize d.vendor_id d.product_id
        let alloc := cmsis_dap_hid_alloc
          (env.pktBufMem (packet_size + REPORT_ID_SIZE)) dap0 packet_size
        if alloc.2 != ERROR_OK then
          -- cmsis_dap_hid_close: hid_close, hid_exit, free(bdata), buffer free
          { result := ERROR_FAIL, hidInitialized := false, enumOutstanding := false
          , handleOpen := false, bdataLive := false, session := none }
        else
          { result := ERROR_OK, hidInitialized := true, enumOutstanding := false
          , handleOpen := true, bdataLive := true
          , session := some { alloc.1 with command_off := REPORT_ID_SIZE, response_off := 0 } }

/-! Concrete fixtures used to exercise the model on closed inputs. -/

/-- A host environment in which every serial-buffer `malloc` succeeds and
narrow-to-wide conversion is the identity. -/
def hidEnvOk : HidEnv :=
  { mbtowide := fun s => some s
  , serialMallocOk := fun _ => true
  , uninitEq := false }

/-- A host environment whose `mbstowcs` fails (`(size_t)-1`) on every input,
with `malloc` — including `malloc(0)` — returning non-null, and the
uninitialized-memory comparison coming out *unequal*. -/
def hidEnvConvFailNe : HidEnv :=
  { mbtowide := fun _ => none
  , serialMallocOk := fun _ => true
  , uninitEq := false }

/-- As `hidEnvConvFailNe`, but the uninitialized-memory comparison comes out
*equal*. -/
def hidEnvConvFailEq : HidEnv :=
  { mbtowide := fun _ => none
  , serialMallocOk := fun _ => true
  , uninitEq := true }

/-- A host environment whose wide-serial-buffer `malloc` always fails. -/
def hidEnvSerialMallocFail : HidEnv :=
  { mbtowide := fun s => some s
  , serialMallocOk := fun _ => false
  , uninitEq := false }

/-- A CMSIS-DAP adapter: product string carries the marker, serial "S1". -/
def devTarget : DeviceDescriptor :=
  { vendor_id := 0xc251, product_id := 0xf001
  , product_string := some ("Keil CMSIS-DAP debug unit".toList)
  , serial_number := some ("S1".toList)
  , interface_number := 0, path := 1 }

/-- A decoy enumerated before the target: no marker in its product string. -/
def devDecoyBefore : DeviceDescriptor :=
  { vendor_id := 0x1234, product_id := 0x0001
  , product_string := some ("Optical Mouse".toList)
  , serial_number := none
  , interface_number := 0, path := 0 }

/-- A decoy enumerated after the target: it would match the empty filter
too, so first-in-order must win over it. -/
def devDecoyAfter : DeviceDescriptor :=
  { vendor_id := 0xc251, product_id := 0xf002
  , product_string := some ("Second CMSIS-DAP unit".toList)
  , serial_number := some ("S2".toList)
  , interface_number := 0, path := 2 }

/-- The LPC-LINK2 composite adapter on interface 0 (its debug function). -/
def devLpcIface0 : DeviceDescriptor :=
  { vendor_id := 0x1fc9, product_id := 0x0090
  , product_string := some ("LPC-LINK2 CMSIS-DAP V5.361".toList)
  , serial_number := none
  , interface_number := 0, path := 3 }

/-- The LPC-LINK2 composite adapter on interface 1 (a non-debug HID
function), which must never be selected. -/
def devLpcIface1 : DeviceDescriptor :=
  { vendor_id := 0x1fc9, product_id := 0x0090
  , product_string := some ("LPC-LINK2 CMSIS-DAP V5.361".toList)
  , serial_number := none
  , interface_number := 1, path := 4 }

/-- A session record before `open` touches it (contents irrelevant). -/
def sess0 : Session :=
  { packet_buffer := [], packet_size := 0, packet_usable_size := 0
  , packet_buffer_size := 0, command_off := 0, response_off := 0 }

/-- A fully healthy open environment over a three-device enumeration with
decoys before and after the target. -/
def openEnvOk : OpenEnv :=
  { toHidEnv := hidEnvOk
  , hidInitOk := true
  , devs := [devDecoyBefore, devTarget, devDecoyAfter]
  , bdataMallocOk := true
  , openPathOk := fun _ => true
  , pktBufMem := fun n => some (List.replicate n 0) }

/-- Healthy open environment except that the packet-buffer `malloc` fails. -/
def openEnvBufFail : OpenEnv :=
  { openEnvOk with pktBufMem := fun _ => none }

/-- Healthy open environment except that the backend-data `malloc` fails. -/
def openEnvBdataFail : OpenEnv :=
  { openEnvOk with bdataMallocOk := false }

/-- Healthy open environment except that the wide-serial-buffer `malloc`
fails. -/
def openEnvSerialMallocFail : OpenEnv :=
  { openEnvOk with toHidEnv := hidEnvSerialMallocFail }

/-- Healthy open environment except that `mbstowcs` fails on every input
(and the resulting uninitialized comparison comes out equal). -/
def openEnvConvFailEq : OpenEnv :=
  { openEnvOk with toHidEnv := hidEnvConvFailEq }

/-- A requested serial (as narrow text) whose conversion the failing
environments reject. -/
def reqSerial : List Char := "S1".toList

/-- A healthy open environment whose enumeration contains no matching
device at all. -/
def openEnvNoMatch : OpenEnv :=
  { openEnvOk with devs := [devDecoyBefore] }

/-- An allocated session with packet size 4 (buffer of 5 bytes, contents
arbitrary), used to exercise the write path on closed inputs. -/
def dapW : Session :=
  { packet_buffer := [9, 9, 9, 9, 9], packet_size := 4, packet_usable_size := 4
  , packet_buffer_size := 5, command_off := 1, response_off := 0 }

/-! Claim theorems. -/

/-- Claim C2: every (vid, pid) pair present in the static quirk table is
looked up to that entry's report size; every absent pair gets the 64-byte
default; the scan stops at the zero-vendor sentinel (rows appended behind
the sentinel are never reached) and the sentinel itself is never a match
(looking up (0, 0) still yields the default). -/
theorem quirk_lookup_matches_table (vid pid : Nat) :
    (∀ s, CmsisDapReportSize.mk vid pid s ∈ report_size_quirks →
        ¬(vid = 0 ∧ pid = 0) → lookupReportSize vid pid = s) ∧
    ((vid, pid) ∉ quirkPairs → lookupReportSize vid pid = 64) ∧
    lookupReportSize 0 0 = 64 ∧
    (∀ extra, quirkScan (report_size_quirks ++ extra) vid pid 64 =
        lookupReportSize vid pid) := by
  refine ⟨?_, ?_, by decide, ?_⟩
  · intro s hmem hns
    simp only [report_size_quirks, List.mem_cons, List.not_mem_nil, or_false,
      CmsisDapReportSize.mk.injEq] at hmem
    rcases hmem with h | h | h | h | h | h | h | h | h <;>
      obtain ⟨rfl, rfl, rfl⟩ := h <;>
      first | rfl | exact absurd ⟨rfl, rfl⟩ hns
  · intro h
    simp only [quirkPairs, report_size_quirks, List.dropLast, List.map, List.mem_cons,
      List.not_mem_nil, or_false, Prod.mk.injEq, not_or] at h
    simp only [lookupReportSize, quirkScan, report_size_quirks]
    norm_num
    split_ifs <;> simp_all
  · intro extra
    simp [lookupReportSize, report_size_quirks, quirkScan]

/-- Witness for C2: the Atmel-ICE pair in the table yields 512, an absent
pair yields the 64-byte default. -/
theorem quirk_lookup_matches_table_witness :
    lookupReportSize 0x03eb 0x2141 = 512 ∧ lookupReportSize 0xc251 0xf001 = 64 :=
  ⟨(quirk_lookup_matches_table 0x03eb 0x2141).1 512 (by decide) (by decide),
   (quirk_lookup_matches_table 0xc251 0xf001).2.1 (by decide)⟩

/-- Claim C9: a successful buffer allocation for requested size `pkt_sz`
establishes `packet_buffer_size = pkt_sz + REPORT_ID_SIZE` (prefix size 1),
`packet_size = pkt_sz`, `command = packet_buffer + REPORT_ID_SIZE` and
`response = packet_buffer` (offsets 1 and 0); the relation
`packet_buffer_size = packet_size + REPORT_ID_SIZE` holds after allocation
and is preserved by write, read and cancel-all. -/
theorem alloc_establishes_frame_invariant (mem : List Nat) (dap : Session)
    (pkt_sz : Nat) (hidw : List Nat → Nat → Int)
    (hidr : Nat → Int → (List Nat × Int)) (txlen : Nat) (t t' : Int)
    (b : CmsisDapBlocking) :
    (cmsis_dap_hid_alloc (some mem) dap pkt_sz).2 = ERROR_OK ∧
    ((cmsis_dap_hid_alloc (some mem) dap pkt_sz).1.packet_buffer_size
        = pkt_sz + REPORT_ID_SIZE ∧
     (cmsis_dap_hid_alloc (some mem) dap pkt_sz).1.packet_size = pkt_sz ∧
     (cmsis_dap_hid_alloc (some mem) dap pkt_sz).1.command_off = REPORT_ID_SIZE ∧
     (cmsis_dap_hid_alloc (some mem) dap pkt_sz).1.response_off = 0) ∧
    (let s := (cmsis_dap_hid_alloc (some mem) dap pkt_sz).1
     s.packet_buffer_size = s.packet_size + REPORT_ID_SIZE ∧
     (let sw := (cmsis_dap_hid_write hidw s txlen t).1
      sw.packet_buffer_size = sw.packet_size + REPORT_ID_SIZE ∧
      sw.packet_size = pkt_sz ∧ sw.packet_buffer_size = s.packet_buffer_size ∧
      sw.command_off = REPORT_ID_SIZE ∧ sw.response_off = 0) ∧
     (let sr := (cmsis_dap_hid_read hidr s t' b).1
      sr.packet_buffer_size = sr.packet_size + REPORT_ID_SIZE ∧
      sr.packet_size = pkt_sz) ∧
     cmsis_dap_hid_cancel_all s = s) :=
  ⟨rfl, ⟨rfl, rfl, rfl, rfl⟩, rfl, ⟨rfl, rfl, rfl, rfl, rfl⟩, ⟨rfl, rfl⟩, rfl⟩

/-- Claim C4: the wait handed to the transport is zero in non-blocking mode
and the caller's `timeout_ms` in blocking mode; a zero-length transport
result becomes `ERROR_TIMEOUT_REACHED` (distinct from the error codes), the
transport's sentinel failure result (`-1`, its only negative result) becomes
`ERROR_FAIL`, and a positive result is returned verbatim as the byte
count. -/
theorem read_timeout_translation (hidr : Nat → Int → (List Nat × Int))
    (dap : Session) (t : Int) (b : CmsisDapBlocking)
    (hr : -1 ≤ (hidr dap.packet_buffer_size (readWaitMs b t)).2) :
    readWaitMs .CMSIS_DAP_NON_BLOCKING t = 0 ∧
    readWaitMs .CMSIS_DAP_BLOCKING t = t ∧
    ((hidr dap.packet_buffer_size (readWaitMs b t)).2 = 0 →
      (cmsis_dap_hid_read hidr dap t b).2 = ERROR_TIMEOUT_REACHED) ∧
    ((hidr dap.packet_buffer_size (readWaitMs b t)).2 < 0 →
      (cmsis_dap_hid_read hidr dap t b).2 = ERROR_FAIL) ∧
    (0 < (hidr dap.packet_buffer_size (readWaitMs b t)).2 →
      (cmsis_dap_hid_read hidr dap t b).2
        = (hidr dap.packet_buffer_size (readWaitMs b t)).2) ∧
    ERROR_TIMEOUT_REACHED ≠ ERROR_FAIL ∧ ERROR_TIMEOUT_REACHED ≠ ERROR_OK := by
  refine ⟨rfl, rfl, ?_, ?_, ?_, by decide, by decide⟩
  · intro h0
    simp [cmsis_dap_hid_read, h0]
  · intro hneg
    have hm1 : (hidr dap.packet_buffer_size (readWaitMs b t)).2 = -1 := by omega
    simp [cmsis_dap_hid_read, hm1]
  · intro hpos
    have h0 : ((hidr dap.packet_buffer_size (readWaitMs b t)).2 == 0) = false := by
      simp; omega
    have h1 : ((hidr dap.packet_buffer_size (readWaitMs b t)).2 == -1) = false := by
      simp; omega
    simp [cmsis_dap_hid_read, h0, h1]

/-- Witness for C4: a zero transport result is a timeout, the sentinel is an
error, a positive count comes back verbatim. -/
theorem read_timeout_translation_witness :
    (cmsis_dap_hid_read (fun _ _ => ([], (0:Int))) sess0 100 .CMSIS_DAP_BLOCKING).2
      = ERROR_TIMEOUT_REACHED ∧
    (cmsis_dap_hid_read (fun _ _ => ([], (-1:Int))) sess0 100 .CMSIS_DAP_BLOCKING).2
      = ERROR_FAIL ∧
    (cmsis_dap_hid_read (fun _ _ => ([1, 2], (5:Int))) sess0 0 .CMSIS_DAP_NON_BLOCKING).2
      = 5 :=
  ⟨(read_timeout_translation (fun _ _ => ([], (0:Int))) sess0 100
      .CMSIS_DAP_BLOCKING (by decide)).2.2.1 rfl,
   (read_timeout_translation (fun _ _ => ([], (-1:Int))) sess0 100
      .CMSIS_DAP_BLOCKING (by decide)).2.2.2.1 (by decide),
   (read_timeout_translation (fun _ _ => ([1, 2], (5:Int))) sess0 0
      .CMSIS_DAP_NON_BLOCKING (by decide)).2.2.2.2.1 (by decide)⟩

/-- C `unsigned` subtraction agrees with `Nat` subtraction when no borrow
occurs. -/
theorem usub32_of_le (a b : Nat) (hb : b ≤ a) (ha : a - b < 2 ^ 32) :
    usub32 a b = a - b := by
  unfold usub32; omega

/-- C `unsigned` subtraction wraps when the subtrahend is larger. -/
theorem usub32_of_gt (a b : Nat) (hab : a < b) (hb32 : b < 2 ^ 32) :
    usub32 a b = a + 2 ^ 32 - b := by
  unfold usub32; omega

/-- `memset` preserves the buffer length. -/
theorem memsetZero_length (buf : List Nat) (start len : Nat) :
    (memsetZero buf start len).length = buf.length := by
  simp [memsetZero, List.length_mapIdx]

/-- Inside the fill range, `memset` writes 0. -/
theorem memsetZero_getD_in (buf : List Nat) (start len i d : Nat)
    (hi : i < buf.length) (h1 : start ≤ i) (h2 : i < start + len) :
    (memsetZero buf start len).getD i d = 0 := by
  have hi' : i < (memsetZero buf start len).length := by rwa [memsetZero_length]
  rw [List.getD_eq_getElem _ _ hi']
  have hg := List.get_mapIdx buf (fun i b => if start ≤ i ∧ i < start + len then 0 else b) i hi
  simp only [List.get_eq_getElem] at hg
  simp only [memsetZero]
  rw [hg]
  simp [h1, h2]

/-- Outside the fill range, `memset` leaves bytes untouched. -/
theorem memsetZero_getD_out (buf : List Nat) (start len i : Nat) (d : Nat)
    (hi : i < buf.length) (h : ¬(start ≤ i ∧ i < start + len)) :
    (memsetZero buf start len).getD i d = buf.getD i d := by
  have hi' : i < (memsetZero buf start len).length := by rwa [memsetZero_length]
  rw [List.getD_eq_getElem _ _ hi', List.getD_eq_getElem _ _ hi]
  have hg := List.get_mapIdx buf (fun i b => if start ≤ i ∧ i < start + len then 0 else b) i hi
  simp only [List.get_eq_getElem] at hg
  simp only [memsetZero]
  rw [hg]
  simp [h]

/-- Setting byte 0 makes byte 0 read as 0. -/
theorem set_getD_zero (buf : List Nat) (h : 0 < buf.length) (d : Nat) :
    (buf.set 0 0).getD 0 d = 0 := by
  have h' : 0 < (buf.set 0 0).length := by simpa using h
  rw [List.getD_eq_getElem _ _ h']
  simp

/-- Setting byte 0 leaves every other byte unchanged. -/
theorem set_getD_pos (buf : List Nat) (i : Nat) (hi : 0 < i) (d : Nat) :
    (buf.set 0 0).getD i d = buf.getD i d := by
  rcases Nat.lt_or_ge i buf.length with hlt | hge
  · have h' : i < (buf.set 0 0).length := by simpa using hlt
    rw [List.getD_eq_getElem _ _ h', List.getD_eq_getElem _ _ hlt]
    rw [List.getElem_set_ne (by omega)]
  · rw [List.getD_eq_default _ _ (by simpa using hge), List.getD_eq_default _ _ hge]

/-- Claim C3: for an allocated session and `txlen ≤ packet_size`, the write
frame has byte 0 (the HID report-id slot) forced to 0, the
`packet_size - txlen` bytes from `command + txlen` to the end of the payload
region zero-filled, and the frame handed to the transport is always the full
`packet_buffer_size` bytes (never truncated); when the transport does not
fail, its reported written-byte count is returned verbatim. -/
theorem write_pads_and_transmits_full_frame (hidw : List Nat → Nat → Int)
    (dap : Session) (txlen : Nat) (timeout_ms : Int)
    (hlen : dap.packet_buffer.length = dap.packet_buffer_size)
    (hpbs : dap.packet_buffer_size = dap.packet_size + REPORT_ID_SIZE)
    (hcmd : dap.command_off = REPORT_ID_SIZE)
    (hps : dap.packet_size < 2 ^ 32)
    (htx : txlen ≤ dap.packet_size) :
    (writeFrame dap txlen).length = dap.packet_buffer_size ∧
    (writeFrame dap txlen).getD 0 1 = 0 ∧
    (∀ j, txlen ≤ j → j < dap.packet_size →
       (writeFrame dap txlen).getD (REPORT_ID_SIZE + j) 1 = 0) ∧
    (cmsis_dap_hid_write hidw dap txlen timeout_ms).1.packet_buffer
      = writeFrame dap txlen ∧
    (hidw (writeFrame dap txlen) dap.packet_buffer_size ≠ -1 →
       (cmsis_dap_hid_write hidw dap txlen timeout_ms).2
         = hidw (writeFrame dap txlen) dap.packet_buffer_size) := by
  have hz : 0 < dap.packet_buffer.length := by
    rw [hlen, hpbs]; simp [REPORT_ID_SIZE]
  have hsetlen : (dap.packet_buffer.set 0 0).length = dap.packet_buffer.length := by
    simp
  have hsub : usub32 dap.packet_size txlen = dap.packet_size - txlen :=
    usub32_of_le _ _ htx (by omega)
  refine ⟨?_, ?_, ?_, rfl, ?_⟩
  · rw [writeFrame, memsetZero_length, hsetlen, hlen]
  · rw [writeFrame, memsetZero_getD_out _ _ _ _ _ (by omega) (by simp [hcmd, REPORT_ID_SIZE])]
    exact set_getD_zero _ hz _
  · intro j hj1 hj2
    rw [writeFrame, memsetZero_getD_in]
    · omega
    · simp [hcmd, REPORT_ID_SIZE]; omega
    · rw [hsub]; simp [hcmd, REPORT_ID_SIZE]; omega
  · intro h
    simp only [cmsis_dap_hid_write]
    rw [if_neg]
    simp [h]

/-- Witness for C3: on a 5-byte frame (packet size 4) with a 2-byte payload,
byte 0 is zero, the byte after the payload is zero, the frame keeps its full
size, and the transport's count (here the frame size it was handed) comes
back verbatim. -/
theorem write_pads_and_transmits_full_frame_witness :
    (writeFrame dapW 2).length = 5 ∧
    (writeFrame dapW 2).getD 0 1 = 0 ∧
    (writeFrame dapW 2).getD (REPORT_ID_SIZE + 2) 1 = 0 ∧
    (cmsis_dap_hid_write (fun _ n => (n : Int)) dapW 2 0).2 = 5 := by
  have h := write_pads_and_transmits_full_frame (fun _ n => (n : Int)) dapW 2 0
    rfl rfl rfl (by decide) (by decide)
  exact ⟨h.1, h.2.1, h.2.2.1 2 (by decide) (by decide), h.2.2.2.2 (by decide)⟩

/-- Claim C10: the pad length of the write's zero-fill is
`packet_size - txlen` in 32-bit unsigned arithmetic.  For
`txlen ≤ packet_size` the fill stays inside the allocated buffer and touches
only the bytes from `command + txlen` to the end of the payload region; for
`txlen > packet_size` the length wraps and the requested fill extends past
the end of the buffer — the `memset` is out of bounds, so the write is not
well-defined there, and `cmsis_dap_hid_write` performs it without any bound
check. -/
theorem write_pad_arith_bounds (dap : Session) (txlen : Nat)
    (hpbs : dap.packet_buffer_size = dap.packet_size + REPORT_ID_SIZE)
    (hcmd : dap.command_off = REPORT_ID_SIZE)
    (hlen : dap.packet_buffer.length = dap.packet_buffer_size)
    (hps : dap.packet_size < 2 ^ 32) (htx32 : txlen < 2 ^ 32) :
    (txlen ≤ dap.packet_size →
       usub32 dap.packet_size txlen = dap.packet_size - txlen ∧
       dap.command_off + txlen + usub32 dap.packet_size txlen
         ≤ dap.packet_buffer.length ∧
       (∀ i d, i < dap.packet_buffer.length →
          ¬(dap.command_off + txlen ≤ i ∧
            i < dap.command_off + txlen + usub32 dap.packet_size txlen) →
          (memsetZero dap.packet_buffer (dap.command_off + txlen)
             (usub32 dap.packet_size txlen)).getD i d
            = dap.packet_buffer.getD i d)) ∧
    (dap.packet_size < txlen →
       usub32 dap.packet_size txlen = dap.packet_size + 2 ^ 32 - txlen ∧
       dap.packet_buffer.length < dap.command_off + txlen
         + usub32 dap.packet_size txlen) := by
  constructor
  · intro htx
    have hsub : usub32 dap.packet_size txlen = dap.packet_size - txlen :=
      usub32_of_le _ _ htx (by omega)
    refine ⟨hsub, ?_, ?_⟩
    · rw [hsub, hlen, hpbs, hcmd]; simp [REPORT_ID_SIZE]; omega
    · intro i d hi hout
      exact memsetZero_getD_out _ _ _ _ _ hi hout
  · intro htx
    have hsub : usub32 dap.packet_size txlen = dap.packet_size + 2 ^ 32 - txlen :=
      usub32_of_gt _ _ htx htx32
    refine ⟨hsub, ?_⟩
    rw [hsub, hlen, hpbs, hcmd]; simp [REPORT_ID_SIZE]; omega

/-- Witness for C10: with packet size 4, a 2-byte payload pads 2 bytes and
stays in bounds; a 6-byte payload wraps the pad length to `2^32 - 2` and the
fill runs past the 5-byte buffer. -/
theorem write_pad_arith_bounds_witness :
    (usub32 dapW.packet_size 2 = 2 ∧
     dapW.command_off + 2 + usub32 dapW.packet_size 2 ≤ dapW.packet_buffer.length) ∧
    (usub32 dapW.packet_size 6 = 4 + 2 ^ 32 - 6 ∧
     dapW.packet_buffer.length < dapW.command_off + 6 + usub32 dapW.packet_size 6) := by
  have h2 := (write_pad_arith_bounds dapW 2 rfl rfl rfl (by decide) (by decide)).1
    (by decide)
  have h6 := (write_pad_arith_bounds dapW 6 rfl rfl rfl (by decide) (by decide)).2
    (by decide)
  exact ⟨⟨h2.1, h2.2.1⟩, ⟨h6.1, h6.2⟩⟩

/-- When conversion succeeds and every serial-buffer allocation succeeds,
one loop iteration selects a candidate exactly when the matcher predicate
accepts it, and never aborts. -/
theorem devStep_eq_of_ok (env : HidEnv) (vids pids : List Nat)
    (serial : Option (List Char)) (d : DeviceDescriptor)
    (hc : ∀ s, serial = some s → env.mbtowide s ≠ none)
    (hm : ∀ n, env.serialMallocOk n = true) :
    devStep env vids pids serial d =
      (if matchesFilter vids pids (serial.bind env.mbtowide) d
       then .select else .skip) := by
  cases serial with
  | none =>
    simp only [devStep, matchesFilter, Option.none_bind, Bool.and_true]
  | some s =>
    cases hw : env.mbtowide s with
    | none => exact absurd hw (hc s rfl)
    | some w =>
      simp only [devStep, matchesFilter, Option.some_bind, hw, hm]
      cases hsn : d.serial_number with
      | none =>
        simp [hsn]
      | some ds =>
        by_cases hwd : w = ds
        · subst hwd
          simp [hsn]
        · simp [hsn, hwd, Ne.symm hwd]

/-- The matcher loop is first-match search: it returns the first candidate
the predicate accepts, `exhausted` when none is. -/
theorem scanDevices_eq_find (env : HidEnv) (vids pids : List Nat)
    (serial : Option (List Char))
    (hc : ∀ s, serial = some s → env.mbtowide s ≠ none)
    (hm : ∀ n, env.serialMallocOk n = true) :
    ∀ devs : List DeviceDescriptor,
      scanDevices env vids pids serial devs =
        (match devs.find? (matchesFilter vids pids (serial.bind env.mbtowide)) with
         | some d => ScanOutcome.selected d
         | none => ScanOutcome.exhausted)
  | [] => rfl
  | d :: rest => by
    rw [scanDevices, devStep_eq_of_ok env vids pids serial d hc hm]
    by_cases hd : matchesFilter vids pids (serial.bind env.mbtowide) d
    · simp [List.find?_cons, hd]
    · simp only [Bool.not_eq_true] at hd
      simp [List.find?_cons, hd, scanDevices_eq_find env vids pids serial hc hm rest]

/-- Claim C1: for every enumeration and filter (with the conversion of a
requested serial succeeding and the serial-buffer allocations succeeding),
the matcher selects the first device in enumeration order satisfying the
active predicate — devices after the first match are never relevant
(scanning stops there) — and when no device satisfies the predicate, the
scan is exhausted and open fails with the not-found `ERROR_FAIL`. -/
theorem matcher_selects_first_match (env : OpenEnv) (vids pids : List Nat)
    (serial : Option (List Char)) (dap0 : Session)
    (hc : ∀ s, serial = some s → env.mbtowide s ≠ none)
    (hm : ∀ n, env.serialMallocOk n = true)
    (hinit : env.hidInitOk = true) :
    (∀ pre d post,
       (∀ x ∈ pre, matchesFilter vids pids (serial.bind env.mbtowide) x = false) →
       matchesFilter vids pids (serial.bind env.mbtowide) d = true →
       scanDevices env.toHidEnv vids pids serial (pre ++ d :: post)
         = ScanOutcome.selected d) ∧
    ((∀ x ∈ env.devs, matchesFilter vids pids (serial.bind env.mbtowide) x = false) →
       scanDevices env.toHidEnv vids pids serial env.devs = ScanOutcome.exhausted ∧
       (cmsis_dap_hid_open env vids pids serial dap0).result = ERROR_FAIL) := by
  constructor
  · intro pre d post hpre hd
    rw [scanDevices_eq_find env.toHidEnv vids pids serial hc hm]
    have hfind : (pre ++ d :: post).find?
        (matchesFilter vids pids (serial.bind env.mbtowide)) = some d := by
      rw [List.find?_append]
      rw [List.find?_eq_none.mpr (by intro x hx; simp [hpre x hx])]
      simp [List.find?_cons, hd]
    rw [hfind]
  · intro hnone
    have hfind : env.devs.find?
        (matchesFilter vids pids (serial.bind env.mbtowide)) = none :=
      List.find?_eq_none.mpr (by intro x hx; simp [hnone x hx])
    have hscan : scanDevices env.toHidEnv vids pids serial env.devs
        = ScanOutcome.exhausted := by
      rw [scanDevices_eq_find env.toHidEnv vids pids serial hc hm, hfind]
    refine ⟨hscan, ?_⟩
    simp [cmsis_dap_hid_open, hinit, hscan]

/-- Witness for C1: with a decoy before and after, the target in the middle
is selected; with no matching device, open reports not-found. -/
theorem matcher_selects_first_match_witness :
    scanDevices openEnvOk.toHidEnv [0] [0] none
        [devDecoyBefore, devTarget, devDecoyAfter] = .selected devTarget ∧
    (cmsis_dap_hid_open openEnvNoMatch [0] [0] none sess0).result = ERROR_FAIL := by
  constructor
  · exact (matcher_selects_first_match openEnvOk [0] [0] none sess0
      (by intro s h; cases h) (fun n => rfl) rfl).1
      [devDecoyBefore] devTarget [devDecoyAfter] (by decide) (by decide)
  · exact ((matcher_selects_first_match openEnvNoMatch [0] [0] none sess0
      (by intro s h; cases h) (fun n => rfl) rfl).2 (by decide)).2

/-- A selected device was accepted by the loop body. -/
theorem scan_selected_step (env : HidEnv) (vids pids : List Nat)
    (serial : Option (List Char)) :
    ∀ (devs : List DeviceDescriptor) (d : DeviceDescriptor),
      scanDevices env vids pids serial devs = .selected d →
      devStep env vids pids serial d = .select
  | [], d => by simp [scanDevices]
  | x :: rest, d => by
    rw [scanDevices]
    cases hx : devStep env vids pids serial x with
    | select => intro h; cases h; exact hx
    | errRet => intro h; cases h
    | skip => exact scan_selected_step env vids pids serial rest d

/-- A loop body that accepts the LPC-LINK2 composite device did so on
interface 0. -/
theorem devStep_select_not_lpc (env : HidEnv) (vids pids : List Nat)
    (serial : Option (List Char)) (d : DeviceDescriptor)
    (hsel : devStep env vids pids serial d = .select)
    (hv : d.vendor_id = 0x1fc9) (hp : d.product_id = 0x0090) :
    d.interface_number = 0 := by
  by_contra hne
  simp [devStep, hv, hp, hne] at hsel

/-- Claim C5: under every environment, filter and enumeration — including
filters explicitly listing (0x1fc9, 0x0090) — a selected device with vendor
id 0x1fc9 and product id 0x0090 has interface number 0 (the composite
adapter on any other interface is never selected); and on interface 0 the
matcher predicate degenerates to the plain filter predicate, so the device
is selected normally. -/
theorem composite_adapter_exclusion :
    (∀ (env : HidEnv) (vids pids : List Nat) (serial : Option (List Char))
       (devs : List DeviceDescriptor) (d : DeviceDescriptor),
       scanDevices env vids pids serial devs = .selected d →
       d.vendor_id = 0x1fc9 → d.product_id = 0x0090 → d.interface_number = 0) ∧
    (∀ (vids pids : List Nat) (ws : Option (List Char)) (d : DeviceDescriptor),
       d.vendor_id = 0x1fc9 → d.product_id = 0x0090 → d.interface_number = 0 →
       matchesFilter vids pids ws d = filterAccepts vids pids ws d) := by
  constructor
  · intro env vids pids serial devs d hscan hv hp
    exact devStep_select_not_lpc env vids pids serial d
      (scan_selected_step env vids pids serial devs d hscan) hv hp
  · intro vids pids ws d hv hp hif
    simp [matchesFilter, filterAccepts, hv, hp, hif]

/-- Witness for C5: with the pair explicitly in the filter and the
interface-1 instance enumerated first, the interface-0 instance is the one
selected, and on it the matcher predicate equals the filter predicate. -/
theorem composite_adapter_exclusion_witness :
    devLpcIface0.interface_number = 0 ∧
    matchesFilter [0x1fc9] [0x0090] none devLpcIface0
      = filterAccepts [0x1fc9] [0x0090] none devLpcIface0 :=
  ⟨composite_adapter_exclusion.1 hidEnvOk [0x1fc9] [0x0090] none
      [devLpcIface1, devLpcIface0] devLpcIface0 (by decide) rfl rfl,
   composite_adapter_exclusion.2 [0x1fc9] [0x0090] none devLpcIface0 rfl rfl rfl⟩

/-- Claim C6: when the matcher selected a device, the backend data and the
device handle were acquired, and the packet-buffer allocation then fails,
open returns the error with the handle closed again (and the HID subsystem
torn down, the backend data freed, no session): no open handle remains
observable after the failed open. -/
theorem open_closes_handle_on_buffer_alloc_failure (env : OpenEnv)
    (vids pids : List Nat) (serial : Option (List Char)) (dap0 : Session)
    (d : DeviceDescriptor)
    (hinit : env.hidInitOk = true)
    (hsel : scanDevices env.toHidEnv vids pids serial env.devs = .selected d)
    (hvp : ¬(d.vendor_id = 0 ∧ d.product_id = 0))
    (hbd : env.bdataMallocOk = true)
    (hop : env.openPathOk d.path = true)
    (hbuf : env.pktBufMem (lookupReportSize d.vendor_id d.product_id
              + REPORT_ID_SIZE) = none) :
    (cmsis_dap_hid_open env vids pids serial dap0).result = ERROR_FAIL ∧
    (cmsis_dap_hid_open env vids pids serial dap0).handleOpen = false ∧
    (cmsis_dap_hid_open env vids pids serial dap0).hidInitialized = false ∧
    (cmsis_dap_hid_open env vids pids serial dap0).bdataLive = false ∧
    (cmsis_dap_hid_open env vids pids serial dap0).session = none := by
  have hvpb : (d.vendor_id == 0 && d.product_id == 0) = false := by
    rcases Nat.eq_zero_or_pos d.vendor_id with h0 | h0
    · rcases Nat.eq_zero_or_pos d.product_id with h1 | h1
      · exact absurd ⟨h0, h1⟩ hvp
      · simp; omega
    · simp; omega
  simp [cmsis_dap_hid_open, hinit, hsel, hvpb, hbd, hop, hbuf,
    cmsis_dap_hid_alloc, ERROR_FAIL, ERROR_OK]

/-- Witness for C6: a concrete open whose packet-buffer allocation fails
ends with the handle closed and the error returned. -/
theorem open_closes_handle_on_buffer_alloc_failure_witness :
    (cmsis_dap_hid_open openEnvBufFail [0] [0] none sess0).result = ERROR_FAIL ∧
    (cmsis_dap_hid_open openEnvBufFail [0] [0] none sess0).handleOpen = false ∧
    (cmsis_dap_hid_open openEnvBufFail [0] [0] none sess0).hidInitialized = false ∧
    (cmsis_dap_hid_open openEnvBufFail [0] [0] none sess0).bdataLive = false ∧
    (cmsis_dap_hid_open openEnvBufFail [0] [0] none sess0).session = none :=
  open_closes_handle_on_buffer_alloc_failure openEnvBufFail [0] [0] none sess0
    devTarget rfl (by decide) (by decide) rfl rfl rfl

/-- Claim C7 is refuted by the code: when `mbstowcs` of the requested
serial fails, `cmsis_dap_hid_open` does not return an error.  The code
leaves the `(size_t)-1` result unchecked, computes `len = 0`, calls
`malloc(0)` and compares the device serial against the uninitialized
buffer: depending on how that undefined comparison falls out, the matching
device is either selected — open then *succeeds* with `ERROR_OK` despite the
conversion failure — or silently skipped, letting scanning continue past it;
in neither case does the loop produce the error return (which the code
reserves for a null `malloc` result alone). -/
theorem conversion_failure_not_propagated :
    scanDevices hidEnvConvFailEq [0] [0] (some reqSerial) [devTarget]
      = .selected devTarget ∧
    (cmsis_dap_hid_open openEnvConvFailEq [0] [0] (some reqSerial) sess0).result
      = ERROR_OK ∧
    scanDevices hidEnvConvFailNe [0] [0] (some reqSerial) [devTarget]
      = .exhausted ∧
    scanDevices hidEnvConvFailNe [0] [0] (some reqSerial) [devTarget]
      ≠ .errorReturn ∧
    scanDevices hidEnvConvFailEq [0] [0] (some reqSerial) [devTarget]
      ≠ .errorReturn := by decide

/-- Claim C8 is refuted by the code on two return paths: when the
wide-serial buffer `malloc` fails inside the matcher loop (`return
ERROR_FAIL` at the line-128 check), and when the backend-data `malloc`
fails (line 158), `cmsis_dap_hid_open` returns without calling
`hid_free_enumeration` — the enumeration snapshot is still outstanding at
return. -/
theorem open_leaks_enumeration_on_alloc_failure :
    ((cmsis_dap_hid_open openEnvSerialMallocFail [0] [0] (some reqSerial) sess0).result
       = ERROR_FAIL ∧
     (cmsis_dap_hid_open openEnvSerialMallocFail [0] [0] (some reqSerial)
        sess0).enumOutstanding = true) ∧
    ((cmsis_dap_hid_open openEnvBdataFail [0] [0] none sess0).result = ERROR_FAIL ∧
     (cmsis_dap_hid_open openEnvBdataFail [0] [0] none sess0).enumOutstanding
       = true) := by decide
